import Mathlib

/-!
Verification of the MoodleMCP request/response translation and safety-gating
layer, as a shallow embedding of the Python source.

Embedded source files:
- `src/moodle_mcp/core/config.py`   (`MoodleConfig`)
- `src/moodle_mcp/core/client.py`   (`MoodleAPIClient._make_request`,
  `MoodleAPIClient._flatten_params`)
- `src/moodle_mcp/utils/error_handling.py` (`require_write_permission`)
- `src/moodle_mcp/tools/courses.py` (`moodle_import_course_content` decorator
  stack)

Python strings are modelled as Lean `String`; the Python `str` methods used by
the source (`lower`, `strip`, `split(',')`, `in` substring test, `int(...)`
conversion) are embedded below, restricted to the ASCII behaviour the source
relies on (the Unicode extensions of `str.lower`, `str.strip` and `int` never
arise in the configuration strings the code handles).
-/

namespace MoodleMCP

/-- Python `str.lower` (ASCII range, as for the configuration values the code
compares against the ASCII literal `"prod"`). -/
def pyLower (s : String) : String :=
  ⟨s.data.map Char.toLower⟩

/-- Python whitespace characters recognised by `str.strip()` with no argument
(ASCII subset: space, tab, newline, carriage return, vertical tab, form feed). -/
def isPySpace (c : Char) : Bool :=
  c = ' ' || c = '\t' || c = '\n' || c = '\r' || c = '\x0b' || c = '\x0c'

/-- Python `str.strip()`: drop leading and trailing whitespace. -/
def pyStrip (s : String) : String :=
  ⟨((s.data.dropWhile isPySpace).reverse.dropWhile isPySpace).reverse⟩

/-- Helper for `pySplit`: accumulate the current chunk (reversed) while
scanning the remaining characters. -/
def pySplitList (sep : Char) : List Char → List Char → List String
  | cur, [] => [⟨cur.reverse⟩]
  | cur, c :: rest =>
    if c = sep then ⟨cur.reverse⟩ :: pySplitList sep [] rest
    else pySplitList sep (c :: cur) rest

/-- Python `str.split(sep)` for a one-character separator, keeping empty
chunks, as `dev_course_whitelist.split(',')` does. -/
def pySplit (s : String) (sep : Char) : List String :=
  pySplitList sep [] s.data

/-- Helper for `pyIn`: substring test on character lists. -/
def listIsInfixOf (n : List Char) : List Char → Bool
  | [] => n.isEmpty
  | c :: rest => n.isPrefixOf (c :: rest) || listIsInfixOf n rest

/-- Python `needle in haystack` on strings: substring containment. -/
def pyIn (needle haystack : String) : Bool :=
  listIsInfixOf needle.data haystack.data

/-- Digit run of Python `int()`: after the first digit, single underscores may
separate digits (`int("1_0") = 10`); a leading, trailing or doubled underscore
fails. Accumulates the decimal value. -/
def pyDigitsAux : Nat → List Char → Option Nat
  | acc, [] => some acc
  | acc, '_' :: c :: rest =>
    if c.isDigit then pyDigitsAux (acc * 10 + (c.toNat - 48)) rest else none
  | _, ['_'] => none
  | acc, c :: rest =>
    if c.isDigit then pyDigitsAux (acc * 10 + (c.toNat - 48)) rest else none

/-- Nonempty ASCII digit run (Python `int()` rejects the empty string). -/
def pyDigits : List Char → Option Nat
  | [] => none
  | c :: rest =>
    if c.isDigit then pyDigitsAux (c.toNat - 48) rest else none

/-- Python `int(s)` in base 10: surrounding whitespace ignored, optional sign,
then a digit run; `none` models the `ValueError` raised on any other shape
(ASCII digits; Unicode digit support never arises for the embedded callers). -/
def pyInt (s : String) : Option Int :=
  match (pyStrip s).data with
  | '+' :: rest => (pyDigits rest).map Int.ofNat
  | '-' :: rest => (pyDigits rest).map (fun n => -(n : Int))
  | rest => (pyDigits rest).map Int.ofNat

/-- Python `repr` of a list of integers, as interpolated by the f-string in
`get_write_restriction_message` (`f"Allowed: {self._parsed_dev_whitelist}"`). -/
def pyIntListRepr (l : List Int) : String :=
  "[" ++ String.intercalate ", " (l.map toString) ++ "]"

/-- Structure `MoodleConfig` from `core/config.py`, restricted to the fields the
embedded methods read.  Field defaults mirror the Pydantic field defaults
(`env = 'dev'`, `dev_course_whitelist = "7299"`, `prod_allow_writes = False`);
the URL/token/pool-size fields are never read by the embedded methods and are
omitted. -/
structure MoodleConfig where
  env : String := "dev"
  dev_course_whitelist : String := "7299"
  prod_allow_writes : Bool := false

/-- Body of the `MoodleConfig._parsed_dev_whitelist` comprehension:
`[int(id.strip()) for id in ... if id.strip()]`.  Entries empty after
stripping are skipped; a failing `int()` conversion aborts the whole
comprehension with a `ValueError`, modelled as `none`. -/
def parseWhitelistEntries : List String → Option (List Int)
  | [] => some []
  | e :: rest =>
    if pyStrip e = "" then parseWhitelistEntries rest
    else
      match pyInt (pyStrip e) with
      | none => none
      | some v => (parseWhitelistEntries rest).map (fun l => v :: l)

/-- Embeds `MoodleConfig._parsed_dev_whitelist` (leading underscore dropped for
Lean): parse the comma-separated whitelist; on `ValueError` fall back to
`[7299]`.  (The `AttributeError` arm of the Python `except` guards a
non-string field value, which the typed embedding excludes.) -/
def MoodleConfig.parsed_dev_whitelist (cfg : MoodleConfig) : List Int :=
  match parseWhitelistEntries (pySplit cfg.dev_course_whitelist ',') with
  | some l => l
  | none => [7299]

/-- Embeds `MoodleConfig.is_production`: `self.env.lower().strip() == 'prod'`. -/
def MoodleConfig.is_production (cfg : MoodleConfig) : Bool :=
  pyStrip (pyLower cfg.env) == "prod"

/-- Embeds `MoodleConfig.can_write_to_course`. -/
def MoodleConfig.can_write_to_course (cfg : MoodleConfig) (course_id : Int) : Bool :=
  if cfg.is_production then cfg.prod_allow_writes
  else cfg.parsed_dev_whitelist.contains course_id

/-- Embeds `MoodleConfig.get_write_restriction_message`. -/
def MoodleConfig.get_write_restriction_message (cfg : MoodleConfig) (course_id : Int) : String :=
  if cfg.is_production then
    "Write operations are DISABLED in PRODUCTION mode.\n" ++
    "Attempted: Course " ++ toString course_id ++ "\n" ++
    "Safety: prod_allow_writes=" ++ (if cfg.prod_allow_writes then "True" else "False")
  else
    "Write operations are only allowed on whitelisted courses in DEV mode.\n" ++
    "Attempted: Course " ++ toString course_id ++ "\n" ++
    "Allowed: " ++ pyIntListRepr cfg.parsed_dev_whitelist ++ "\n" ++
    "To allow writes to this course, add it to MOODLE_DEV_COURSE_WHITELIST"

/-- Parsed JSON values, as returned by `response.json()` in `client.py`.
Numbers are restricted to integers (no claim involves floats). -/
inductive Json where
  | null : Json
  | bool (b : Bool) : Json
  | num (n : Int) : Json
  | str (s : String) : Json
  | arr (xs : List Json) : Json
  | obj (fields : List (String × Json)) : Json

/-- The typed error taxonomy of `core/exceptions.py`, restricted to the
variants `_make_request` can raise.  Each carries the message string built at
the raise site. -/
inductive MoodleErr where
  | auth (msg : String) : MoodleErr
  | permission (msg : String) : MoodleErr
  | notFound (msg : String) : MoodleErr
  | api (msg : String) : MoodleErr
  | connection (msg : String) : MoodleErr

/-- First-match lookup of a key in a JSON object (Python dict keys are
unique, so first-match agrees with dict access). -/
def jsonLookup (fields : List (String × Json)) (key : String) : Option Json :=
  List.lookup key fields

/-- Python `key in result` for a JSON object. -/
def hasKey (fields : List (String × Json)) (key : String) : Bool :=
  (jsonLookup fields key).isSome

/-- Python `result.get(key, default)` where the call site then uses the value as a
string.  A present non-string value falls back to the default here; in Python
a non-string `errorcode` would instead escape as a `TypeError` from the `in`
test — a shape no claim exercises and the remote protocol never produces. -/
def getStrField (fields : List (String × Json)) (key : String) (dflt : String) : String :=
  match jsonLookup fields key with
  | some (Json.str s) => s
  | some _ => dflt
  | none => dflt

/-- The Moodle-specific error classification of `_make_request`
(`client.py` lines 99-116): a dict body containing `exception` or
`errorcode` is classified by substring match on the error code, in priority
order; otherwise no error is raised (`none`). -/
def classify_body (fields : List (String × Json)) : Option MoodleErr :=
  if hasKey fields "exception" || hasKey fields "errorcode" then
    let error_msg := getStrField fields "message" "Unknown error"
    let error_code := getStrField fields "errorcode" "unknown"
    let debug_info := getStrField fields "debuginfo" ""
    some (
      if pyIn "invalidtoken" error_code || pyIn "accessexception" error_code then
        MoodleErr.auth ("Authentication failed: " ++ error_msg)
      else if pyIn "nopermission" error_code || pyIn "requireloginerror" error_code then
        MoodleErr.permission ("Permission denied: " ++ error_msg)
      else if pyIn "invalidrecord" error_code || pyIn "notfound" error_code then
        MoodleErr.notFound ("Not found: " ++ error_msg)
      else
        MoodleErr.api ("Moodle API error (" ++ error_code ++ "): " ++ error_msg ++
          (if debug_info == "" then "" else " - " ++ debug_info)))
  else none

/-- Embeds the `MoodleAPIClient._make_request` response handling (`client.py` lines
90-131), as a function of the observable response:
`transport_error` models `httpx.RequestError` raised by `client.get` (the
request never produced a response); `status` is the HTTP status code;
`body` is the JSON parse of the response body, `none` when parsing raises
`ValueError`.  Control flow mirrors the source: `response.raise_for_status()`
runs first, so any non-2xx status is classified from the status alone by the
`httpx.HTTPStatusError` handler (401/403 → auth, 404 → notFound, otherwise
connection) before the body is ever parsed; only a 2xx response reaches JSON
parsing and `classify_body`.  Exception-detail interpolations (`{e}`) are
omitted from the modelled message strings. -/
def make_request (transport_error : Bool) (status : Nat) (body : Option Json) :
    Except MoodleErr Json :=
  if transport_error then Except.error (MoodleErr.connection "Connection failed")
  else if 200 ≤ status ∧ status ≤ 299 then
    match body with
    | none => Except.error (MoodleErr.api "Invalid JSON response")
    | some j =>
      match j with
      | Json.obj fields =>
        match classify_body fields with
        | some e => Except.error e
        | none => Except.ok j
      | _ => Except.ok j
  else
    if status = 401 ∨ status = 403 then
      Except.error (MoodleErr.auth ("HTTP " ++ toString status ++ ": Authentication failed"))
    else if status = 404 then
      Except.error (MoodleErr.notFound "HTTP 404: Resource not found")
    else
      Except.error (MoodleErr.connection ("HTTP error " ++ toString status))

/-- Python values passed as request parameters to `_flatten_params`
(`params: dict[str, Any]`): scalars, lists/tuples and dicts.  Python tuples
flatten identically to lists and share the `list` constructor. -/
inductive PValue where
  | int (n : Int) : PValue
  | str (s : String) : PValue
  | bool (b : Bool) : PValue
  | pynone : PValue
  | list (xs : List PValue) : PValue
  | dict (fields : List (String × PValue)) : PValue

mutual

/-- Python `str(value)` on a parameter value (`client.py` lines 159, 162).
For scalars this is exact; for compound values Python renders the `repr` of
the elements, embedded here with plain single-quoting of strings (Python
additionally escapes quotes/backslashes inside them, which no claim
exercises). -/
def pyStr : PValue → String
  | PValue.int n => toString n
  | PValue.str s => s
  | PValue.bool b => if b then "True" else "False"
  | PValue.pynone => "None"
  | PValue.list xs => "[" ++ pyReprJoin xs ++ "]"
  | PValue.dict fields => "\x7b" ++ pyReprDictJoin fields ++ "\x7d"

/-- Python `repr(value)`, used by `str` on the elements of compound values. -/
def pyRepr : PValue → String
  | PValue.str s => "'" ++ s ++ "'"
  | v => pyStr v

/-- Comma-joined `repr`s of list elements. -/
def pyReprJoin : List PValue → String
  | [] => ""
  | [v] => pyRepr v
  | v :: rest => pyRepr v ++ ", " ++ pyReprJoin rest

/-- Comma-joined `'key': repr(value)` renderings of dict entries. -/
def pyReprDictJoin : List (String × PValue) → String
  | [] => ""
  | [(k, v)] => "'" ++ k ++ "': " ++ pyRepr v
  | (k, v) :: rest => "'" ++ k ++ "': " ++ pyRepr v ++ ", " ++ pyReprDictJoin rest

end

mutual

/-- Embeds `MoodleAPIClient._flatten_params` (`client.py` lines 133-164).  The
Python function accumulates entries into a dict in insertion order; all keys
produced for the claims' inputs are distinct, so the result is modelled as the
association list of entries in insertion order. -/
def flatten_params : List (String × PValue) → String → List (String × String)
  | [], _ => []
  | (key, value) :: rest, pfx =>
    flattenEntry key value pfx ++ flatten_params rest pfx

/-- One `for key, value in params.items()` iteration of `_flatten_params`. -/
def flattenEntry (key : String) (value : PValue) (pfx : String) : List (String × String) :=
  let new_key := if pfx = "" then key else pfx ++ key
  match value with
  | PValue.dict fields =>
    flatten_params fields (new_key ++ "[") ++
      (if pfx = "" then [] else [(new_key ++ "]", "")])
  | PValue.list xs => flattenItems new_key xs 0
  | v => [(new_key, pyStr v)]

/-- The `for i, item in enumerate(value)` loop of `_flatten_params`. -/
def flattenItems (new_key : String) : List PValue → Nat → List (String × String)
  | [], _ => []
  | item :: rest, i =>
    (match item with
     | PValue.dict fields =>
       flatten_params fields (new_key ++ "[" ++ toString i ++ "][")
     | it => [(new_key ++ "[" ++ toString i ++ "]", pyStr it)]) ++
    flattenItems new_key rest (i + 1)

end

/-- Returns `true` exactly when the call outcome is a raised `MoodleAuthError`. -/
def isAuthErr : Except MoodleErr Json → Bool
  | Except.error (MoodleErr.auth _) => true
  | _ => false

/-- Returns `true` exactly when the call returned normally (no exception raised). -/
def exceptIsOk {ε α : Type} : Except ε α → Bool
  | Except.ok _ => true
  | Except.error _ => false

/-- The `ctx.request_context.lifespan_context` mapping, restricted to the
`'config'` entry that `require_write_permission` reads; `none` models a
context whose lifespan mapping has no `'config'` key. -/
structure LifespanCtx where
  config : Option MoodleConfig

/-- The keyword arguments a decorated tool function is invoked with.
`intArgs` holds the integer-valued keyword arguments by name (an entry
`(name, none)` is an argument explicitly passed as `None`); `ctx` is the
`ctx` keyword argument, `none` when absent or `None`. -/
structure ToolKwargs where
  intArgs : List (String × Option Int)
  ctx : Option LifespanCtx

/-- Python `kwargs.get(name)`: `none` both when the argument is absent and when it
was passed as `None`, exactly as Python's `dict.get` collapses the two. -/
def kwargsGet (kw : ToolKwargs) (name : String) : Option Int :=
  match List.lookup name kw.intArgs with
  | some v => v
  | none => none

/-- Embeds `require_write_permission` from `utils/error_handling.py` (lines
130-165): the decorator's wrapper around a tool body `func`.  All raised
errors are `WriteOperationError`s carrying the message built at the raise
site, modelled as `Except.error msg`. -/
def require_write_permission {α : Type} (course_id_param : String)
    (func : ToolKwargs → Except String α) (kw : ToolKwargs) : Except String α :=
  match kwargsGet kw course_id_param with
  | none =>
    Except.error ("Write operation requires '" ++ course_id_param ++ "' parameter")
  | some course_id =>
    match kw.ctx with
    | none => Except.error "Write operation requires Context (ctx parameter)"
    | some c =>
      match c.config with
      | none => Except.error "Configuration not available in context"
      | some config =>
        if config.can_write_to_course course_id then func kw
        else
          Except.error ("Write operation blocked for safety:\n\n" ++
            config.get_write_restriction_message course_id)

/-- The decorator stack of `moodle_import_course_content`
(`tools/courses.py` lines 717-719): the tool body `inner` (which issues the
`core_course_duplicate_course`-style RPC via `_make_request`) wrapped first by
`require_write_permission('dest_course_id')`, then by
`require_write_permission('source_course_id')`. -/
def moodle_import_course_content (inner : ToolKwargs → Except String Json) :
    ToolKwargs → Except String Json :=
  require_write_permission "source_course_id"
    (require_write_permission "dest_course_id" inner)

end MoodleMCP

namespace MoodleMCP

/-! ## Claim theorems -/

/-- C1 counterexample: contrary to the claim, the environment string `"PROD"`
(uppercase) resolves to Production — `is_production` lowercases and strips
before comparing, so a different casing of `prod` does not fall back to
Development. -/
theorem env_prod_casing_counterexample :
    (MoodleConfig.mk "PROD" "7299" false).is_production = true := by decide

/-- C1 (amended): the configuration resolves to Production exactly when
`env.lower().strip()` equals `"prod"`; case variants such as `"PROD"` and
`"Prod"` and whitespace-padded variants such as `" prod "` therefore also
resolve to Production, while near-matches such as `"production"` resolve to
Development. -/
theorem env_prod_normalized_mode (e w : String) (p : Bool) :
    ((MoodleConfig.mk e w p).is_production = true ↔ pyStrip (pyLower e) = "prod")
    ∧ (MoodleConfig.mk "PROD" w p).is_production = true
    ∧ (MoodleConfig.mk "Prod" w p).is_production = true
    ∧ (MoodleConfig.mk " prod " w p).is_production = true
    ∧ (MoodleConfig.mk "production" w p).is_production = false
    ∧ (MoodleConfig.mk "prod" w p).is_production = true := by
  refine ⟨?_, rfl, rfl, rfl, rfl, rfl⟩
  simp [MoodleConfig.is_production]

/-- C2: evaluating the embedded `_flatten_params` at the claimed inputs.  The
code produces the keys `users[0][id` / `users[1][id` and `options[ids[0]` —
each missing a closing bracket — instead of the `users[0][id]` /
`users[1][id]` and `options[ids][0]` keys that the claim (and the function's
own docstring example) state; the claimed keys are absent from the result. -/
theorem flatten_params_missing_close_bracket :
    flatten_params [("users", PValue.list
      [PValue.dict [("id", PValue.int 1)], PValue.dict [("id", PValue.int 2)]])] ""
      = [("users[0][id", "1"), ("users[1][id", "2")]
    ∧ flatten_params [("options", PValue.dict [("ids", PValue.list [PValue.int 2292])])] ""
      = [("options[ids[0]", "2292")]
    ∧ List.lookup "users[0][id]" (flatten_params [("users", PValue.list
        [PValue.dict [("id", PValue.int 1)], PValue.dict [("id", PValue.int 2)]])] "")
      = none
    ∧ List.lookup "options[ids][0]" (flatten_params
        [("options", PValue.dict [("ids", PValue.list [PValue.int 2292])])] "")
      = none := by
  have h1 : flatten_params [("users", PValue.list
      [PValue.dict [("id", PValue.int 1)], PValue.dict [("id", PValue.int 2)]])] ""
      = [("users[0][id", "1"), ("users[1][id", "2")] := by
    simp [flatten_params, flattenEntry, flattenItems, pyStr]
    decide
  have h2 : flatten_params [("options", PValue.dict [("ids", PValue.list [PValue.int 2292])])] ""
      = [("options[ids[0]", "2292")] := by
    simp [flatten_params, flattenEntry, flattenItems, pyStr]
    decide
  refine ⟨h1, h2, ?_, ?_⟩
  · rw [h1]; decide
  · rw [h2]; decide

/-- C3 counterexample: contrary to the claim, with HTTP status 500 and a body
containing `errorcode = "invalidtoken"`, the call raises a Connection error —
`response.raise_for_status()` runs before the body is parsed, so the HTTP
status is trusted first and the body is never inspected. -/
theorem status_checked_before_body_counterexample :
    isAuthErr (make_request false 500 (some (Json.obj
      [("exception", Json.str "x"), ("errorcode", Json.str "invalidtoken"),
       ("message", Json.str "bad")]))) = false
    ∧ make_request false 500 (some (Json.obj
      [("exception", Json.str "x"), ("errorcode", Json.str "invalidtoken"),
       ("message", Json.str "bad")]))
      = Except.error (MoodleErr.connection "HTTP error 500") :=
  ⟨rfl, rfl⟩

/-- C3 (amended): only when the HTTP status is a success status (2xx) is the
body inspected; a JSON object body carrying an `errorcode` containing
`invalidtoken` is then classified as Authentication.  For non-success
statuses the status alone decides before the body is parsed: 404 yields
NotFound and 500 yields Connection, whatever the body. -/
theorem invalidtoken_classification_by_status (status : Nat)
    (fields : List (String × Json)) (ec : String) (b : Option Json)
    (hs : 200 ≤ status ∧ status ≤ 299)
    (hkey : hasKey fields "errorcode" = true)
    (hec : getStrField fields "errorcode" "unknown" = ec)
    (hin : pyIn "invalidtoken" ec = true) :
    make_request false status (some (Json.obj fields))
      = Except.error (MoodleErr.auth
          ("Authentication failed: " ++ getStrField fields "message" "Unknown error"))
    ∧ make_request false 404 (some (Json.obj fields))
      = Except.error (MoodleErr.notFound "HTTP 404: Resource not found")
    ∧ make_request false 500 b
      = Except.error (MoodleErr.connection "HTTP error 500") := by
  refine ⟨?_, rfl, rfl⟩
  simp [make_request, hs, classify_body, hkey, hec, hin]

/-- C3 witness: the amended statement instantiated at status 200 with the
claim's `invalidtoken` body. -/
theorem invalidtoken_classification_by_status_witness :
    make_request false 200 (some (Json.obj
      [("exception", Json.str "x"), ("errorcode", Json.str "invalidtoken"),
       ("message", Json.str "bad")]))
      = Except.error (MoodleErr.auth
          ("Authentication failed: " ++ getStrField
            [("exception", Json.str "x"), ("errorcode", Json.str "invalidtoken"),
             ("message", Json.str "bad")] "message" "Unknown error"))
    ∧ make_request false 404 (some (Json.obj
      [("exception", Json.str "x"), ("errorcode", Json.str "invalidtoken"),
       ("message", Json.str "bad")]))
      = Except.error (MoodleErr.notFound "HTTP 404: Resource not found")
    ∧ make_request false 500 none
      = Except.error (MoodleErr.connection "HTTP error 500") :=
  invalidtoken_classification_by_status 200
    [("exception", Json.str "x"), ("errorcode", Json.str "invalidtoken"),
     ("message", Json.str "bad")] "invalidtoken" none
    (by decide) (by decide) (by decide) (by decide)

/-- C4: in Development mode with the default allow-list `"7299"`,
`can_write_to_course 7299` is true and `can_write_to_course 1` is false; in
Production mode `can_write_to_course` equals the `prod_allow_writes` flag for
every course id, and that flag's field default is `false`. -/
theorem can_write_dev_whitelist_and_prod_flag (cfg : MoodleConfig)
    (h : cfg.is_production = true) (cid : Int) :
    cfg.can_write_to_course cid = cfg.prod_allow_writes
    ∧ (MoodleConfig.mk "dev" "7299" false).can_write_to_course 7299 = true
    ∧ (MoodleConfig.mk "dev" "7299" false).can_write_to_course 1 = false
    ∧ ({ env := "prod" } : MoodleConfig).prod_allow_writes = false := by
  refine ⟨?_, by decide, by decide, rfl⟩
  simp [MoodleConfig.can_write_to_course, h]

/-- C4 witness: instantiated at a Production configuration with
`prod_allow_writes = true` and course id 42. -/
theorem can_write_dev_whitelist_and_prod_flag_witness :
    (MoodleConfig.mk "prod" "7299" true).can_write_to_course 42
      = (MoodleConfig.mk "prod" "7299" true).prod_allow_writes
    ∧ (MoodleConfig.mk "dev" "7299" false).can_write_to_course 7299 = true
    ∧ (MoodleConfig.mk "dev" "7299" false).can_write_to_course 1 = false
    ∧ ({ env := "prod" } : MoodleConfig).prod_allow_writes = false :=
  can_write_dev_whitelist_and_prod_flag (MoodleConfig.mk "prod" "7299" true) (by decide) 42

/-- C5: for a JSON object body containing `exception` or `errorcode`, the
raised variant is decided by substring match on the error code in priority
order — `invalidtoken`/`accessexception` → Authentication, else
`nopermission`/`requireloginerror` → Permission, else
`invalidrecord`/`notfound` → NotFound, else the generic API error with the
debuginfo string appended to the message when present. -/
theorem classify_body_priority_order (fields : List (String × Json)) (ec msg dbg : String)
    (hkey : (hasKey fields "exception" || hasKey fields "errorcode") = true)
    (hec : getStrField fields "errorcode" "unknown" = ec)
    (hmsg : getStrField fields "message" "Unknown error" = msg)
    (hdbg : getStrField fields "debuginfo" "" = dbg) :
    ((pyIn "invalidtoken" ec || pyIn "accessexception" ec) = true →
      classify_body fields = some (MoodleErr.auth ("Authentication failed: " ++ msg)))
    ∧ ((pyIn "invalidtoken" ec || pyIn "accessexception" ec) = false →
       (pyIn "nopermission" ec || pyIn "requireloginerror" ec) = true →
      classify_body fields = some (MoodleErr.permission ("Permission denied: " ++ msg)))
    ∧ ((pyIn "invalidtoken" ec || pyIn "accessexception" ec) = false →
       (pyIn "nopermission" ec || pyIn "requireloginerror" ec) = false →
       (pyIn "invalidrecord" ec || pyIn "notfound" ec) = true →
      classify_body fields = some (MoodleErr.notFound ("Not found: " ++ msg)))
    ∧ ((pyIn "invalidtoken" ec || pyIn "accessexception" ec) = false →
       (pyIn "nopermission" ec || pyIn "requireloginerror" ec) = false →
       (pyIn "invalidrecord" ec || pyIn "notfound" ec) = false →
      classify_body fields = some (MoodleErr.api ("Moodle API error (" ++ ec ++ "): "
        ++ msg ++ (if dbg == "" then "" else " - " ++ dbg)))) := by
  refine ⟨?_, ?_, ?_, ?_⟩ <;> intros <;>
    simp [classify_body, hkey, hec, hmsg, hdbg, *]

/-- C5 witness: a body whose error code `invalidrecord` matches the third
priority tier and classifies as NotFound. -/
theorem classify_body_priority_order_witness :
    classify_body [("exception", Json.str "x"), ("errorcode", Json.str "invalidrecord"),
      ("message", Json.str "gone")]
      = some (MoodleErr.notFound ("Not found: " ++ "gone")) :=
  (classify_body_priority_order
    [("exception", Json.str "x"), ("errorcode", Json.str "invalidrecord"),
     ("message", Json.str "gone")] "invalidrecord" "gone" ""
    (by decide) (by decide) (by decide) (by decide)).2.2.1
    (by decide) (by decide) (by decide)

/-- C6: the decorator stack of `moodle_import_course_content` denies — with a
`WriteOperationError` and without invoking the wrapped tool body, so no RPC
is issued — whenever either `source_course_id` or `dest_course_id` fails the
write-permission gate, and runs the wrapped body exactly when both pass. -/
theorem course_copy_requires_both_gates (cfg : MoodleConfig)
    (src dst : Int) (kw : ToolKwargs) (c : LifespanCtx)
    (f g : ToolKwargs → Except String Json)
    (hsrc : kwargsGet kw "source_course_id" = some src)
    (hdst : kwargsGet kw "dest_course_id" = some dst)
    (hctx : kw.ctx = some c) (hcfg : c.config = some cfg) :
    ((cfg.can_write_to_course src = false ∨ cfg.can_write_to_course dst = false) →
      moodle_import_course_content f kw = moodle_import_course_content g kw
      ∧ exceptIsOk (moodle_import_course_content f kw) = false)
    ∧ (cfg.can_write_to_course src = true → cfg.can_write_to_course dst = true →
      moodle_import_course_content f kw = f kw) := by
  constructor
  · rintro (hfail | hfail)
    · simp [moodle_import_course_content, require_write_permission,
        hsrc, hdst, hctx, hcfg, hfail, exceptIsOk]
    · cases hsw : cfg.can_write_to_course src <;>
        simp [moodle_import_course_content, require_write_permission,
          hsrc, hdst, hctx, hcfg, hfail, hsw, exceptIsOk]
  · intro h1 h2
    simp [moodle_import_course_content, require_write_permission,
      hsrc, hdst, hctx, hcfg, h1, h2]

/-- C6 witness: with the development allow-list `{7299}`, a copy from course
7299 (which passes the gate) to course 1 (which fails it) is denied without
the tool body running, for two tool bodies with different outcomes. -/
theorem course_copy_requires_both_gates_witness :
    moodle_import_course_content (fun _ => Except.ok Json.null)
      (ToolKwargs.mk [("source_course_id", some 7299), ("dest_course_id", some 1)]
        (some (LifespanCtx.mk (some (MoodleConfig.mk "dev" "7299" false)))))
    = moodle_import_course_content (fun _ => Except.error "x")
      (ToolKwargs.mk [("source_course_id", some 7299), ("dest_course_id", some 1)]
        (some (LifespanCtx.mk (some (MoodleConfig.mk "dev" "7299" false)))))
    ∧ exceptIsOk (moodle_import_course_content (fun _ => Except.ok Json.null)
      (ToolKwargs.mk [("source_course_id", some 7299), ("dest_course_id", some 1)]
        (some (LifespanCtx.mk (some (MoodleConfig.mk "dev" "7299" false)))))) = false :=
  (course_copy_requires_both_gates (MoodleConfig.mk "dev" "7299" false)
    7299 1
    (ToolKwargs.mk [("source_course_id", some 7299), ("dest_course_id", some 1)]
      (some (LifespanCtx.mk (some (MoodleConfig.mk "dev" "7299" false)))))
    (LifespanCtx.mk (some (MoodleConfig.mk "dev" "7299" false)))
    (fun _ => Except.ok Json.null) (fun _ => Except.error "x")
    (by decide) (by decide) rfl rfl).1 (Or.inr (by decide))

/-- C7: every environment string whose lowercased, stripped form differs from
`"prod"` resolves to Development — `is_production` is false and
`can_write_to_course` follows the development allow-list rule. -/
theorem non_prod_mode_resolves_development (m : String)
    (h : pyStrip (pyLower m) ≠ "prod") (w : String) (p : Bool) (cid : Int) :
    (MoodleConfig.mk m w p).is_production = false
    ∧ (MoodleConfig.mk m w p).can_write_to_course cid
        = (MoodleConfig.mk m w p).parsed_dev_whitelist.contains cid := by
  have hb : (MoodleConfig.mk m w p).is_production = false := by
    simp [MoodleConfig.is_production]; exact h
  exact ⟨hb, by simp [MoodleConfig.can_write_to_course, hb]⟩

/-- C7 witness: instantiated at the environment string `"dev"`. -/
theorem non_prod_mode_resolves_development_witness :
    (MoodleConfig.mk "dev" "7299" false).is_production = false
    ∧ (MoodleConfig.mk "dev" "7299" false).can_write_to_course 7299
        = (MoodleConfig.mk "dev" "7299" false).parsed_dev_whitelist.contains 7299 :=
  non_prod_mode_resolves_development "dev" (by decide) "7299" false 7299

/-- C8: when the transport succeeded and the HTTP status is a success status
but the body fails to parse as JSON, the call raises the generic
`MoodleAPIError` with the invalid-JSON message, not any other variant. -/
theorem invalid_json_raises_api_error (status : Nat)
    (hs : 200 ≤ status ∧ status ≤ 299) :
    make_request false status none = Except.error (MoodleErr.api "Invalid JSON response") := by
  simp [make_request, hs]

/-- C8 witness: instantiated at HTTP status 200. -/
theorem invalid_json_raises_api_error_witness :
    make_request false 200 none = Except.error (MoodleErr.api "Invalid JSON response") :=
  invalid_json_raises_api_error 200 (by decide)

/-- Helper for C9: if any entry of the split whitelist is nonempty after
stripping yet fails integer conversion, the whole comprehension raises. -/
theorem parseWhitelistEntries_eq_none (l : List String)
    (h : ∃ e ∈ l, pyStrip e ≠ "" ∧ pyInt (pyStrip e) = none) :
    parseWhitelistEntries l = none := by
  induction l with
  | nil => simp at h
  | cons e rest ih =>
    obtain ⟨x, hx, hxs, hxn⟩ := h
    by_cases he : pyStrip e = ""
    · rw [List.mem_cons] at hx
      rcases hx with rfl | hx
      · exact absurd he hxs
      · simp [parseWhitelistEntries, he, ih ⟨x, hx, hxs, hxn⟩]
    · rw [List.mem_cons] at hx
      rcases hx with rfl | hx
      · simp [parseWhitelistEntries, he, hxn]
      · cases hpi : pyInt (pyStrip e) with
        | none => simp [parseWhitelistEntries, he, hpi]
        | some v => simp [parseWhitelistEntries, he, hpi, ih ⟨x, hx, hxs, hxn⟩]

/-- C9: when any (nonempty-after-strip) entry of the configured whitelist
fails integer conversion, the effective allow-list silently falls back to
exactly `[7299]`, so course 7299 is writable in Development even though it
does not appear in the configured string (`"10,abc"`); entries empty after
stripping are skipped, so a string of only commas and whitespace yields an
empty allow-list under which every course id is denied. -/
theorem whitelist_parse_fallback (cfg : MoodleConfig) (cid : Int)
    (h : ∃ e ∈ pySplit cfg.dev_course_whitelist ',',
          pyStrip e ≠ "" ∧ pyInt (pyStrip e) = none) :
    cfg.parsed_dev_whitelist = [7299]
    ∧ (MoodleConfig.mk "dev" "10,abc" false).parsed_dev_whitelist = [7299]
    ∧ (MoodleConfig.mk "dev" "10,abc" false).can_write_to_course 7299 = true
    ∧ (MoodleConfig.mk "dev" ",,  ," false).parsed_dev_whitelist = []
    ∧ (MoodleConfig.mk "dev" ",,  ," false).can_write_to_course cid = false := by
  refine ⟨?_, by decide, by decide, by decide, ?_⟩
  · unfold MoodleConfig.parsed_dev_whitelist
    rw [parseWhitelistEntries_eq_none _ h]
  · have h1 : (MoodleConfig.mk "dev" ",,  ," false).is_production = false := by decide
    have h2 : (MoodleConfig.mk "dev" ",,  ," false).parsed_dev_whitelist = [] := by decide
    simp [MoodleConfig.can_write_to_course, h1, h2]

/-- C9 witness: instantiated at the whitelist string `"abc"` (whose single
entry fails conversion) and course id 5. -/
theorem whitelist_parse_fallback_witness :
    (MoodleConfig.mk "dev" "abc" false).parsed_dev_whitelist = [7299]
    ∧ (MoodleConfig.mk "dev" "10,abc" false).parsed_dev_whitelist = [7299]
    ∧ (MoodleConfig.mk "dev" "10,abc" false).can_write_to_course 7299 = true
    ∧ (MoodleConfig.mk "dev" ",,  ," false).parsed_dev_whitelist = []
    ∧ (MoodleConfig.mk "dev" ",,  ," false).can_write_to_course 5 = false :=
  whitelist_parse_fallback (MoodleConfig.mk "dev" "abc" false) 5
    ⟨"abc", by decide, by decide, by decide⟩

/-- C10: the `require_write_permission` wrapper fails closed — it returns a
`WriteOperationError` without invoking the wrapped tool (the result is
independent of the tool body) whenever the named target-id argument is absent
or `None`, the `ctx` argument is absent or `None`, the configuration is
missing from the lifespan context, or `can_write_to_course` returns false. -/
theorem require_write_permission_fails_closed (param : String) (kw : ToolKwargs)
    (f g : ToolKwargs → Except String Json)
    (h : kwargsGet kw param = none
       ∨ kw.ctx = none
       ∨ (∃ c, kw.ctx = some c ∧ c.config = none)
       ∨ (∃ c cfg cid, kw.ctx = some c ∧ c.config = some cfg
           ∧ kwargsGet kw param = some cid ∧ cfg.can_write_to_course cid = false)) :
    require_write_permission param f kw = require_write_permission param g kw
    ∧ exceptIsOk (require_write_permission param f kw) = false := by
  rcases h with h | h | ⟨c, hc, hcfg⟩ | ⟨c, cfg, cid, hc, hcfg, hcid, hcw⟩
  · simp [require_write_permission, h, exceptIsOk]
  · cases hk : kwargsGet kw param <;>
      simp [require_write_permission, hk, h, exceptIsOk]
  · cases hk : kwargsGet kw param <;>
      simp [require_write_permission, hk, hc, hcfg, exceptIsOk]
  · simp [require_write_permission, hcid, hc, hcfg, hcw, exceptIsOk]

/-- C10 witness: a call with no arguments at all is denied for two tool
bodies with different outcomes. -/
theorem require_write_permission_fails_closed_witness :
    require_write_permission "course_id" (fun _ => Except.ok Json.null)
        (ToolKwargs.mk [] none)
      = require_write_permission "course_id" (fun _ => Except.error "x")
        (ToolKwargs.mk [] none)
    ∧ exceptIsOk (require_write_permission "course_id" (fun _ => Except.ok Json.null)
        (ToolKwargs.mk [] none)) = false :=
  require_write_permission_fails_closed "course_id" (ToolKwargs.mk [] none)
    (fun _ => Except.ok Json.null) (fun _ => Except.error "x") (Or.inl rfl)

end MoodleMCP
